import Mathlib

/-!
Verification of the RingBuffer_and_DataFraming_C repository.

The circular FIFO buffer (circularBuffer.c over circularBuffer.h, the
generation that stores a void pointer plus an element byte width) and the
frame extraction layer (dsp_frame.c) are embedded shallowly at the byte
level: the storage a buffer points at is a list of byte values, memcpy
and memset become list splicing operations, and the cursor fields keep
the exact signed integer arithmetic of the C source.  Sizes passed by
callers (uint32_t in C) are naturals, cast to Int inside comparisons;
the C expressions are mirrored one for one, including the two spots
where the source deviates from the obvious intent (the first wrap copy
of Enqueue offsets the destination by r bytes rather than
elementSize*r bytes, and the oversized dequeue in the rear-ahead state
assigns r to itself instead of advancing f).
-/

namespace RingBuffer

/-- memcpy into dst at byte offset off from the byte list src
(in-bounds calls, the only ones the C makes on well-formed states,
preserve the length). -/
def storeBytes (dst : List Int) (off : Nat) (src : List Int) : List Int :=
  dst.take off ++ src ++ dst.drop (off + src.length)

/-- Read len bytes of src starting at byte offset off (memcpy source side). -/
def readBytes (src : List Int) (off len : Nat) : List Int :=
  (src.drop off).take len

/-- memset of len zero bytes into dst at byte offset off. -/
def memsetZero (dst : List Int) (off len : Nat) : List Int :=
  storeBytes dst off (List.replicate len 0)

/-- The test vector a, a+1, ..., a+n-1 used to feed numbered one-byte
elements through the buffer. -/
def seqList (a : Int) : Nat → List Int
  | 0 => []
  | n + 1 => a :: seqList (a + 1) n

/-- circularBuffer_TypeDef from circularBuffer.h: byte storage, rear and
front cursors (int32_t, -1 is the empty sentinel), capacity in elements
(int32_t) and bytes per element (int8_t). -/
structure circularBuffer_TypeDef where
  buf : List Int
  r : Int
  f : Int
  bufferSize : Int
  elementSize : Int
deriving DecidableEq, Repr

/-- CircularBuffer_IsEmpty: 1 iff both cursors are -1. -/
def CircularBuffer_IsEmpty (targetBuf : circularBuffer_TypeDef) : Bool :=
  targetBuf.r = -1 ∧ targetBuf.f = -1

/-- CircularBuffer_IsFull: 1 iff the cursors are equal and not -1. -/
def CircularBuffer_IsFull (targetBuf : circularBuffer_TypeDef) : Bool :=
  targetBuf.f = targetBuf.r ∧ targetBuf.f ≠ -1

/-- CircularBuffer_Init: bind the provided storage, set both cursors
to -1 and zero elementSize*bufferSize bytes of the storage. -/
def CircularBuffer_Init (pBuf : List Int) (SetElementSize SetBufferSize : Int) :
    circularBuffer_TypeDef :=
  { buf := storeBytes pBuf 0
      (List.replicate (SetElementSize * SetBufferSize).toNat 0)
    r := -1
    f := -1
    bufferSize := SetBufferSize
    elementSize := SetElementSize }

/-- CircularBuffer_Flush: reset both cursors without touching storage. -/
def CircularBuffer_Flush (targetBuf : circularBuffer_TypeDef) :
    circularBuffer_TypeDef :=
  { targetBuf with r := -1, f := -1 }

/-- Shared body of the BUF_STATE_EMPTY (after the cursor reset, via goto
label1) and BUF_STATE_R_MORE_THAN_F cases of CircularBuffer_Enqueue.
The first wrap section copies to byte offset r, exactly as the source
writes (uint8_t *)(targetBuf->buf) + targetBuf->r with no elementSize
factor. -/
def enqueueRearAhead (b : circularBuffer_TypeDef) (enqueueData : List Int)
    (enqueueSize : Nat) : circularBuffer_TypeDef :=
  if b.r + (enqueueSize : Int) ≤ b.bufferSize then
    { b with
      buf := storeBytes b.buf (b.elementSize * b.r).toNat
        (readBytes enqueueData 0 (b.elementSize * (enqueueSize : Int)).toNat)
      r := (b.r + (enqueueSize : Int)) % b.bufferSize }
  else
    let buf1 := storeBytes b.buf b.r.toNat
      (readBytes enqueueData 0 (b.elementSize * (b.bufferSize - b.r)).toNat)
    if (enqueueSize : Int) + b.r - b.bufferSize ≤ b.f then
      { b with
        buf := storeBytes buf1 0
          (readBytes enqueueData (b.elementSize * (b.bufferSize - b.r)).toNat
            (b.elementSize * ((enqueueSize : Int) + b.r - b.bufferSize)).toNat)
        r := (b.r + (enqueueSize : Int)) % b.bufferSize }
    else
      { b with
        buf := storeBytes buf1 0
          (readBytes enqueueData (b.elementSize * (b.bufferSize - b.r)).toNat
            (b.elementSize * b.f).toNat)
        r := b.f }

/-- CircularBuffer_Enqueue: classify the state as the source does
(empty, full, rear ahead, rear behind) and mirror each branch. -/
def CircularBuffer_Enqueue (targetBuf : circularBuffer_TypeDef)
    (enqueueData : List Int) (enqueueSize : Nat) : circularBuffer_TypeDef :=
  if CircularBuffer_IsEmpty targetBuf then
    enqueueRearAhead { targetBuf with f := 0, r := 0 } enqueueData enqueueSize
  else if CircularBuffer_IsFull targetBuf then
    targetBuf
  else if targetBuf.r > targetBuf.f then
    enqueueRearAhead targetBuf enqueueData enqueueSize
  else if targetBuf.r < targetBuf.f then
    if targetBuf.r + (enqueueSize : Int) ≤ targetBuf.f then
      { targetBuf with
        buf := storeBytes targetBuf.buf
          (targetBuf.elementSize * targetBuf.r).toNat
          (readBytes enqueueData 0
            (targetBuf.elementSize * (enqueueSize : Int)).toNat)
        r := (targetBuf.r + (enqueueSize : Int)) % targetBuf.bufferSize }
    else
      { targetBuf with
        buf := storeBytes targetBuf.buf
          (targetBuf.elementSize * targetBuf.r).toNat
          (readBytes enqueueData 0
            (targetBuf.elementSize * (targetBuf.f - targetBuf.r)).toNat)
        r := targetBuf.f }
  else
    targetBuf

/-- CircularBuffer_Dequeue: dequeueData models the caller sink array and
outOff the byte offset of the pointer the caller passed into it (the
frame layer passes frame + elementSize*overlap).  Returns the updated
buffer and the updated sink.  The oversized rear-ahead branch mirrors
the source statement targetBuf->r = targetBuf->r, so the cursors are
left alone there. -/
def CircularBuffer_Dequeue (targetBuf : circularBuffer_TypeDef)
    (dequeueData : List Int) (outOff : Nat) (dequeueSize : Nat) :
    circularBuffer_TypeDef × List Int :=
  if CircularBuffer_IsEmpty targetBuf then
    (targetBuf, dequeueData)
  else if targetBuf.r > targetBuf.f then
    if (dequeueSize : Int) ≤ targetBuf.r - targetBuf.f then
      let out := storeBytes dequeueData outOff
        (readBytes targetBuf.buf (targetBuf.elementSize * targetBuf.f).toNat
          (targetBuf.elementSize * (dequeueSize : Int)).toNat)
      let buf2 := memsetZero targetBuf.buf
        (targetBuf.elementSize * targetBuf.f).toNat
        (targetBuf.elementSize * (dequeueSize : Int)).toNat
      let f2 := targetBuf.f + (dequeueSize : Int)
      if f2 = targetBuf.r then
        ({ targetBuf with buf := buf2, f := -1, r := -1 }, out)
      else
        ({ targetBuf with buf := buf2, f := f2 }, out)
    else
      let out := storeBytes dequeueData outOff
        (readBytes targetBuf.buf (targetBuf.elementSize * targetBuf.f).toNat
          (targetBuf.elementSize * (targetBuf.r - targetBuf.f)).toNat)
      let buf2 := memsetZero targetBuf.buf
        (targetBuf.elementSize * targetBuf.f).toNat
        (targetBuf.elementSize * (targetBuf.r - targetBuf.f)).toNat
      if targetBuf.f = targetBuf.r then
        ({ targetBuf with buf := buf2, f := -1, r := -1 }, out)
      else
        ({ targetBuf with buf := buf2 }, out)
  else
    if targetBuf.f + (dequeueSize : Int) ≤ targetBuf.bufferSize then
      let out := storeBytes dequeueData outOff
        (readBytes targetBuf.buf (targetBuf.elementSize * targetBuf.f).toNat
          (targetBuf.elementSize * (dequeueSize : Int)).toNat)
      let buf2 := memsetZero targetBuf.buf
        (targetBuf.elementSize * targetBuf.f).toNat
        (targetBuf.elementSize * (dequeueSize : Int)).toNat
      let f2 := (targetBuf.f + (dequeueSize : Int)) % targetBuf.bufferSize
      if f2 = targetBuf.r then
        ({ targetBuf with buf := buf2, f := -1, r := -1 }, out)
      else
        ({ targetBuf with buf := buf2, f := f2 }, out)
    else
      let out1 := storeBytes dequeueData outOff
        (readBytes targetBuf.buf (targetBuf.elementSize * targetBuf.f).toNat
          (targetBuf.elementSize * (targetBuf.bufferSize - targetBuf.f)).toNat)
      let buf1 := memsetZero targetBuf.buf
        (targetBuf.elementSize * targetBuf.f).toNat
        (targetBuf.elementSize * (targetBuf.bufferSize - targetBuf.f)).toNat
      if (dequeueSize : Int) + targetBuf.f - targetBuf.bufferSize ≤ targetBuf.r then
        let out2 := storeBytes out1
          (outOff + (targetBuf.elementSize * (targetBuf.bufferSize - targetBuf.f)).toNat)
          (readBytes buf1 0
            (targetBuf.elementSize * ((dequeueSize : Int) + targetBuf.f - targetBuf.bufferSize)).toNat)
        let buf2 := memsetZero buf1 0
          (targetBuf.elementSize * ((dequeueSize : Int) + targetBuf.f - targetBuf.bufferSize)).toNat
        let f2 := (targetBuf.f + (dequeueSize : Int)) % targetBuf.bufferSize
        if f2 = targetBuf.r then
          ({ targetBuf with buf := buf2, f := -1, r := -1 }, out2)
        else
          ({ targetBuf with buf := buf2, f := f2 }, out2)
      else
        let out2 := storeBytes out1
          (outOff + (targetBuf.elementSize * (targetBuf.bufferSize - targetBuf.f)).toNat)
          (readBytes buf1 0 (targetBuf.elementSize * targetBuf.r).toNat)
        let buf2 := memsetZero buf1 0 (targetBuf.elementSize * targetBuf.r).toNat
        let f2 := targetBuf.r
        if f2 = targetBuf.r then
          ({ targetBuf with buf := buf2, f := -1, r := -1 }, out2)
        else
          ({ targetBuf with buf := buf2, f := f2 }, out2)

/-- Modelled from the spec (section 3, data model): the live region of a
buffer, read oldest first from the cursor state.  Used to phrase
content claims; the source has no such helper. -/
def liveBytes (b : circularBuffer_TypeDef) : List Int :=
  if CircularBuffer_IsEmpty b then []
  else if b.r > b.f then
    readBytes b.buf (b.elementSize * b.f).toNat
      (b.elementSize * (b.r - b.f)).toNat
  else
    readBytes b.buf (b.elementSize * b.f).toNat
      (b.elementSize * (b.bufferSize - b.f)).toNat ++
    readBytes b.buf 0 (b.elementSize * b.r).toNat

/-- State of the C1 wrap test after Init: zeroed storage, cursors -1. -/
def c1b0 (N : Nat) : circularBuffer_TypeDef :=
  { buf := List.replicate N 0, r := -1, f := -1, bufferSize := (N : Int),
    elementSize := 1 }

/-- State of the C1 wrap test after enqueueing 1..N: full, front 0. -/
def c1b1 (N : Nat) : circularBuffer_TypeDef :=
  { buf := seqList 1 N, r := 0, f := 0, bufferSize := (N : Int),
    elementSize := 1 }

/-- State of the C1 wrap test after dequeueing k elements: the first k
slots are zeroed, front k, rear 0 (wrapped free region). -/
def c1b2 (N k : Nat) : circularBuffer_TypeDef :=
  { buf := List.replicate k 0 ++ seqList ((k : Int) + 1) (N - k), r := 0,
    f := (k : Int), bufferSize := (N : Int), elementSize := 1 }

/-- State of the C1 wrap test after enqueueing N+1..N+k into the freed
slots: full again with front k. -/
def c1b3 (N k : Nat) : circularBuffer_TypeDef :=
  { buf := seqList ((N : Int) + 1) k ++ seqList ((k : Int) + 1) (N - k),
    r := (k : Int), f := (k : Int), bufferSize := (N : Int), elementSize := 1 }

/-- State of the C1 wrap test after the final dequeue of N elements:
empty again, storage zeroed. -/
def c1b4 (N k : Nat) : circularBuffer_TypeDef :=
  { buf := List.replicate k 0 ++ List.replicate (N - k) 0, r := -1, f := -1,
    bufferSize := (N : Int), elementSize := 1 }

end RingBuffer

namespace DspFrame

open RingBuffer

/-- dspFrame_result from dsp_frame.h. -/
inductive dspFrame_result where
  | FIRST_FRAME_IS_NOT_COMPLETED
  | FIRST_FRAME_IS_COMPLETED
  | FRAME_IS_NOT_READY
  | FRAME_IS_READY
  | FRAME_ERROR
deriving DecidableEq, Repr

/-- dspFrame_TypeDef from dsp_frame.h: frame byte storage, frame and
overlap sizes in elements, bytes per element, the first-frame flag
(uint8_t, 0 or 1 in every reachable state) and the overlap carry
buffer that the first ready frame allocates. -/
structure dspFrame_TypeDef where
  frame : List Int
  frameSize : Int
  overlap : Int
  elementSize : Int
  firstFrameCompleteFlag : Int
  p_previousOverlap : List Int
deriving DecidableEq, Repr

/-- DSP_frameExtraction_Init: bind the frame storage, record the sizes,
clear the first-frame flag and zero elementSize*frameSize bytes.  The
carry pointer is not allocated yet (empty list here, as in the source
where it dangles until the first ready frame). -/
def DSP_frameExtraction_Init (pFrame : List Int)
    (SetElementSize SetFrameSize SetOverlap : Int) : dspFrame_TypeDef :=
  { frame := storeBytes pFrame 0
      (List.replicate (SetElementSize * SetFrameSize).toNat 0)
    frameSize := SetFrameSize
    overlap := SetOverlap
    elementSize := SetElementSize
    firstFrameCompleteFlag := 0
    p_previousOverlap := [] }

/-- The ready body shared by the three steady-state branches of
DSP_frameExtraction_IsNextFrameReady: copy the carry into the head of
the frame, dequeue the hop into the tail, refresh the carry from the
frame tail. -/
def steadyReady (targetBuf : circularBuffer_TypeDef) (targetFrame : dspFrame_TypeDef)
    (dequeueSize : Int) :
    dspFrame_result × circularBuffer_TypeDef × dspFrame_TypeDef :=
  let frame1 := storeBytes targetFrame.frame 0
    (readBytes targetFrame.p_previousOverlap 0
      (targetFrame.elementSize * targetFrame.overlap).toNat)
  let bd := CircularBuffer_Dequeue targetBuf frame1
    (targetFrame.elementSize * targetFrame.overlap).toNat dequeueSize.toNat
  let pOv := storeBytes targetFrame.p_previousOverlap 0
    (readBytes bd.2 (targetFrame.elementSize * dequeueSize).toNat
      (targetFrame.elementSize * targetFrame.overlap).toNat)
  (dspFrame_result.FRAME_IS_READY, bd.1,
    { targetFrame with frame := bd.2, p_previousOverlap := pOv })

/-- DSP_frameExtraction_IsNextFrameReady, mirroring dsp_frame.c branch
for branch: element size guard, bootstrap phase (ready only when
r - f is at least frameSize and the cursors differ), then the three
steady branches on the cursor relation. -/
def DSP_frameExtraction_IsNextFrameReady (targetBuf : circularBuffer_TypeDef)
    (targetFrame : dspFrame_TypeDef) :
    dspFrame_result × circularBuffer_TypeDef × dspFrame_TypeDef :=
  if targetFrame.elementSize ≠ targetBuf.elementSize then
    (dspFrame_result.FRAME_ERROR, targetBuf, targetFrame)
  else if targetFrame.firstFrameCompleteFlag = 0 then
    if targetBuf.r - targetBuf.f ≥ targetFrame.frameSize ∧
        targetBuf.f ≠ targetBuf.r then
      let dequeueSize := targetFrame.frameSize - targetFrame.overlap
      let pOv0 := List.replicate
        (targetFrame.overlap * targetFrame.elementSize).toNat 0
      let bd := CircularBuffer_Dequeue targetBuf targetFrame.frame 0
        targetFrame.frameSize.toNat
      let pOv := storeBytes pOv0 0
        (readBytes bd.2 (targetFrame.elementSize * dequeueSize).toNat
          (targetFrame.elementSize * targetFrame.overlap).toNat)
      (dspFrame_result.FRAME_IS_READY, bd.1,
        { targetFrame with frame := bd.2, firstFrameCompleteFlag := 1,
                           p_previousOverlap := pOv })
    else
      (dspFrame_result.FRAME_IS_NOT_READY, targetBuf, targetFrame)
  else if targetFrame.firstFrameCompleteFlag = 1 then
    let dequeueSize := targetFrame.frameSize - targetFrame.overlap
    if targetBuf.r > targetBuf.f then
      if targetBuf.r - targetBuf.f ≥
          targetFrame.frameSize - targetFrame.overlap then
        steadyReady targetBuf targetFrame dequeueSize
      else
        (dspFrame_result.FRAME_IS_NOT_READY, targetBuf, targetFrame)
    else if targetBuf.r < targetBuf.f then
      if targetBuf.bufferSize + targetBuf.r - targetBuf.f ≥
          targetFrame.frameSize - targetFrame.overlap then
        steadyReady targetBuf targetFrame dequeueSize
      else
        (dspFrame_result.FRAME_IS_NOT_READY, targetBuf, targetFrame)
    else
      if CircularBuffer_IsFull targetBuf then
        steadyReady targetBuf targetFrame
          (targetFrame.frameSize - targetFrame.overlap)
      else if CircularBuffer_IsEmpty targetBuf then
        (dspFrame_result.FRAME_IS_NOT_READY, targetBuf, targetFrame)
      else
        (dspFrame_result.FRAME_ERROR, targetBuf, targetFrame)
  else
    (dspFrame_result.FRAME_ERROR, targetBuf, targetFrame)

/-- Drive the pair as testbench_dsp_frame.c does: enqueue one element,
then pull; record each pull result together with the frame contents
after the call. -/
def pullPerEnqueue : circularBuffer_TypeDef → dspFrame_TypeDef → List Int →
    List (dspFrame_result × List Int)
  | _, _, [] => []
  | b, fr, v :: vs =>
    let b1 := CircularBuffer_Enqueue b [v] 1
    let st := DSP_frameExtraction_IsNextFrameReady b1 fr
    (st.1, st.2.2.frame) :: pullPerEnqueue st.2.1 st.2.2 vs

end DspFrame

open RingBuffer DspFrame

namespace RingBuffer

/-- Modelled from the spec (section 4.1, state machine): a cursor pair
is valid when both cursors are the -1 sentinel or both lie in
[0, capacity-1]; equal in-range cursors are the full representation. -/
def validCursors (b : circularBuffer_TypeDef) : Prop :=
  (b.f = -1 ∧ b.r = -1) ∨
  (0 ≤ b.f ∧ b.f < b.bufferSize ∧ 0 ≤ b.r ∧ b.r < b.bufferSize)

instance (b : circularBuffer_TypeDef) : Decidable (validCursors b) := by
  unfold validCursors
  infer_instance

/-- The four buffer states of the source classification. -/
inductive BufState where
  | empty
  | full
  | ahead
  | behind
deriving DecidableEq, Repr

/-- Classify a buffer exactly as the switch heads of Enqueue do:
empty, full, rear ahead of front, rear behind front. -/
def bufState (b : circularBuffer_TypeDef) : BufState :=
  if CircularBuffer_IsEmpty b then BufState.empty
  else if CircularBuffer_IsFull b then BufState.full
  else if b.r > b.f then BufState.ahead
  else BufState.behind

/-- The states reachable from CircularBuffer_Init (with positive
capacity and element size) through any sequence of Enqueue and Dequeue
calls. -/
inductive Reachable : circularBuffer_TypeDef → Prop where
  | init (pBuf : List Int) (es N : Int) (hes : 0 < es) (hN : 0 < N) :
      Reachable (CircularBuffer_Init pBuf es N)
  | enq (b : circularBuffer_TypeDef) (data : List Int) (n : Nat)
      (h : Reachable b) : Reachable (CircularBuffer_Enqueue b data n)
  | deq (b : circularBuffer_TypeDef) (sink : List Int) (off n : Nat)
      (h : Reachable b) : Reachable (CircularBuffer_Dequeue b sink off n).1

end RingBuffer

/-! ### Concrete fixture states used by the claim witnesses and exhibits -/

/-- Fixture for the C8 witness: a full one-element buffer. -/
def fullBufC8 : circularBuffer_TypeDef :=
  { buf := [7], r := 0, f := 0, bufferSize := 1, elementSize := 1 }

/-- Fixture for C5: a full capacity-one buffer holding the element 7,
reached by Init followed by a single enqueue. -/
def fullBufC5 : circularBuffer_TypeDef :=
  CircularBuffer_Enqueue (CircularBuffer_Init (List.replicate 1 0) 1 1) [7] 1

/-- Fixture for the C10 witness: a freshly initialized buffer. -/
def emptyBufC10 : circularBuffer_TypeDef :=
  CircularBuffer_Init (List.replicate 3 0) 1 3

/-- Fixture for the C6 counterexample: a freshly initialized
capacity-2 buffer. -/
def emptyBufC6 : circularBuffer_TypeDef :=
  CircularBuffer_Init (List.replicate 2 0) 1 2

/-- Fixture for C2: a 2-byte-element, capacity-2 buffer holding one live
element with bytes [10, 11], reached from Init by one enqueue. -/
def bufC2 : circularBuffer_TypeDef :=
  CircularBuffer_Enqueue (CircularBuffer_Init (List.replicate 4 0) 2 2) [10, 11] 1

/-- Fixture for C7: a capacity-2 buffer in the rear-ahead state holding
the single element 7, reached from Init by one enqueue. -/
def bufC7 : circularBuffer_TypeDef :=
  CircularBuffer_Enqueue (CircularBuffer_Init (List.replicate 2 0) 1 2) [7] 1

/-- Fixture for the C4 counterexample: a full capacity-2 buffer. -/
def bufC4 : circularBuffer_TypeDef :=
  CircularBuffer_Enqueue (CircularBuffer_Init (List.replicate 2 0) 1 2) [1, 2] 2

/-- Fixture for the C4 witness: a rear-ahead buffer holding [1, 2] in a
capacity-3 store. -/
def bufC4w : circularBuffer_TypeDef :=
  { buf := [1, 2, 0], r := 2, f := 0, bufferSize := 3, elementSize := 1 }

/-- Fixture for the C4 witness: matching extractor, frameSize 2,
overlap 1, first frame not done. -/
def frC4w : dspFrame_TypeDef :=
  { frame := [0, 0], frameSize := 2, overlap := 1, elementSize := 1,
    firstFrameCompleteFlag := 0, p_previousOverlap := [] }

/-- Fixtures for the C9 witness: a 4-byte-element buffer paired with a
2-byte-element extractor, as in the spec test. -/
def bufC9 : circularBuffer_TypeDef := CircularBuffer_Init (List.replicate 8 0) 4 2

def frC9 : dspFrame_TypeDef := DSP_frameExtraction_Init (List.replicate 4 0) 2 2 1

/-- Fixture for the C4 counterexample: a matching extractor with
frameSize 2 and overlap 1, first frame not yet done. -/
def frC4 : dspFrame_TypeDef := DSP_frameExtraction_Init (List.replicate 2 0) 1 2 1

/-! ### Basic facts about the byte splicing operations -/

theorem storeBytes_nil (l : List Int) (off : Nat) : storeBytes l off [] = l := by
  simp [storeBytes]

theorem storeBytes_zero (l s : List Int) :
    storeBytes l 0 s = s ++ l.drop s.length := by
  simp [storeBytes]

theorem storeBytes_zero_full (l s : List Int) (h : s.length = l.length) :
    storeBytes l 0 s = s := by
  simp [storeBytes, h]

theorem readBytes_zero_take (l : List Int) (n : Nat) :
    readBytes l 0 n = l.take n := by
  simp [readBytes]

theorem readBytes_length (l : List Int) (off n : Nat)
    (h : off + n ≤ l.length) : (readBytes l off n).length = n := by
  simp [readBytes]
  omega

/-! ### Size fields are never written -/

theorem enqueue_sizes (b : circularBuffer_TypeDef) (data : List Int) (n : Nat) :
    (CircularBuffer_Enqueue b data n).bufferSize = b.bufferSize ∧
    (CircularBuffer_Enqueue b data n).elementSize = b.elementSize := by
  simp only [CircularBuffer_Enqueue, enqueueRearAhead]
  split_ifs <;> simp

theorem dequeue_sizes (b : circularBuffer_TypeDef) (sink : List Int)
    (off n : Nat) :
    (CircularBuffer_Dequeue b sink off n).1.bufferSize = b.bufferSize ∧
    (CircularBuffer_Dequeue b sink off n).1.elementSize = b.elementSize := by
  simp only [CircularBuffer_Dequeue]
  split_ifs <;> simp

/-! ### Cursor shape of enqueueRearAhead -/

theorem enqueueRearAhead_f (b : circularBuffer_TypeDef) (data : List Int)
    (n : Nat) : (enqueueRearAhead b data n).f = b.f := by
  unfold enqueueRearAhead
  repeat' split
  all_goals simp

theorem enqueueRearAhead_bufferSize (b : circularBuffer_TypeDef)
    (data : List Int) (n : Nat) :
    (enqueueRearAhead b data n).bufferSize = b.bufferSize := by
  simp only [enqueueRearAhead]
  split_ifs <;> simp

theorem enqueueRearAhead_r (b : circularBuffer_TypeDef) (data : List Int)
    (n : Nat) :
    (enqueueRearAhead b data n).r = (b.r + (n : Int)) % b.bufferSize ∨
    (enqueueRearAhead b data n).r = b.f := by
  simp only [enqueueRearAhead]
  split_ifs <;> simp

/-- On a full buffer the enqueue switch hits the BUF_STATE_FULL case,
which does nothing. -/
theorem enqueue_of_full (b : circularBuffer_TypeDef)
    (h : CircularBuffer_IsFull b = true) (data : List Int) (n : Nat) :
    CircularBuffer_Enqueue b data n = b := by
  have he : CircularBuffer_IsEmpty b = false := by
    simp only [CircularBuffer_IsFull, decide_eq_true_eq] at h
    simp only [CircularBuffer_IsEmpty, decide_eq_false_iff_not]
    rintro ⟨h1, h2⟩
    exact h.2 h2
  simp only [CircularBuffer_Enqueue, he, h, Bool.false_eq_true, if_false, if_true]

/-! ### Classifying states from cursor facts -/

theorem bufState_eq_empty (b : circularBuffer_TypeDef) (hr : b.r = -1)
    (hf : b.f = -1) : bufState b = BufState.empty := by
  simp [bufState, CircularBuffer_IsEmpty, hr, hf]

theorem bufState_eq_full (b : circularBuffer_TypeDef) (hf : 0 ≤ b.f)
    (heq : b.f = b.r) : bufState b = BufState.full := by
  have hIE : CircularBuffer_IsEmpty b = false := by
    simp only [CircularBuffer_IsEmpty, decide_eq_false_iff_not]
    rintro ⟨h1, h2⟩
    omega
  have hIF : CircularBuffer_IsFull b = true := by
    simp only [CircularBuffer_IsFull, decide_eq_true_eq]
    exact ⟨heq, by omega⟩
  simp [bufState, hIE, hIF]

theorem bufState_eq_ahead (b : circularBuffer_TypeDef) (hf : 0 ≤ b.f)
    (hgt : b.r > b.f) : bufState b = BufState.ahead := by
  have hIE : CircularBuffer_IsEmpty b = false := by
    simp only [CircularBuffer_IsEmpty, decide_eq_false_iff_not]
    rintro ⟨h1, h2⟩
    omega
  have hIF : CircularBuffer_IsFull b = false := by
    simp only [CircularBuffer_IsFull, decide_eq_false_iff_not]
    rintro ⟨h1, h2⟩
    omega
  simp [bufState, hIE, hIF, hgt]

theorem bufState_ne_empty (b : circularBuffer_TypeDef) (hf : 0 ≤ b.f) :
    bufState b ≠ BufState.empty := by
  have hIE : CircularBuffer_IsEmpty b = false := by
    simp only [CircularBuffer_IsEmpty, decide_eq_false_iff_not]
    rintro ⟨h1, h2⟩
    omega
  simp only [bufState, hIE, Bool.false_eq_true, if_false]
  split_ifs <;> simp

theorem bufState_ne_full (b : circularBuffer_TypeDef) (hne : b.f ≠ b.r) :
    bufState b ≠ BufState.full := by
  by_cases hE : CircularBuffer_IsEmpty b = true
  · simp [bufState, hE]
  · have hE' : CircularBuffer_IsEmpty b = false := by simpa using hE
    have hIF : CircularBuffer_IsFull b = false := by
      simp only [CircularBuffer_IsFull, decide_eq_false_iff_not]
      rintro ⟨h1, h2⟩
      exact hne h1
    simp only [bufState, hE', hIF, Bool.false_eq_true, if_false]
    split_ifs <;> simp

/-! ### Cursor state machine: the enqueue step -/

theorem enqueue_cursor_step (b : circularBuffer_TypeDef) (data : List Int)
    (n : Nat) (hN : 0 < b.bufferSize) (hv : validCursors b) :
    validCursors (CircularBuffer_Enqueue b data n) ∧
    bufState (CircularBuffer_Enqueue b data n) ≠ BufState.empty ∧
    (bufState b = BufState.empty →
      bufState (CircularBuffer_Enqueue b data n) = BufState.ahead ∨
      bufState (CircularBuffer_Enqueue b data n) = BufState.full) ∧
    (bufState b = BufState.empty →
      (bufState (CircularBuffer_Enqueue b data n) = BufState.full ↔
        (n = 0 ∨ b.bufferSize ≤ (n : Int)))) ∧
    (bufState b = BufState.full → CircularBuffer_Enqueue b data n = b) := by
  have hnn : (0 : Int) ≤ (n : Int) := Int.natCast_nonneg n
  by_cases hE : CircularBuffer_IsEmpty b = true
  · obtain ⟨hr1, hf1⟩ : b.r = -1 ∧ b.f = -1 := by
      simpa [CircularBuffer_IsEmpty] using hE
    have hSe : bufState b = BufState.empty := bufState_eq_empty b hr1 hf1
    have henq : CircularBuffer_Enqueue b data n =
        enqueueRearAhead { b with f := 0, r := 0 } data n := by
      simp [CircularBuffer_Enqueue, hE]
    have hf' : (CircularBuffer_Enqueue b data n).f = 0 := by
      rw [henq, enqueueRearAhead_f]
    have hbs : (CircularBuffer_Enqueue b data n).bufferSize = b.bufferSize :=
      (enqueue_sizes b data n).1
    have hr' : (CircularBuffer_Enqueue b data n).r =
        (if (n : Int) = 0 ∨ b.bufferSize ≤ (n : Int) then 0 else (n : Int)) := by
      rw [henq]
      unfold enqueueRearAhead
      by_cases h1 : ((0 : Int) + (n : Int) ≤ b.bufferSize)
      · rw [if_pos (by simpa using h1)]
        rcases eq_or_lt_of_le (by omega : (n : Int) ≤ b.bufferSize) with he | hlt
        · simp only [zero_add]
          rw [if_pos (Or.inr (le_of_eq he.symm)), he, Int.emod_self]
        · simp only [zero_add]
          rw [Int.emod_eq_of_lt hnn hlt]
          by_cases h0 : (n : Int) = 0
          · rw [if_pos (Or.inl h0), h0]
          · rw [if_neg (by push_neg; exact ⟨h0, by omega⟩)]
      · rw [if_neg (by simpa using h1)]
        simp only
        rw [if_neg (by simp; omega)]
        simp only
        rw [if_pos (Or.inr (by omega))]
    refine ⟨?_, ?_, ?_, ?_, ?_⟩
    · right
      rw [hf', hr', hbs]
      split_ifs with hc
      · exact ⟨le_refl 0, hN, le_refl 0, hN⟩
      · push_neg at hc
        exact ⟨le_refl 0, hN, hnn, by omega⟩
    · exact bufState_ne_empty _ (by simp [hf'])
    · intro _
      by_cases hc : ((n : Int) = 0 ∨ b.bufferSize ≤ (n : Int))
      · right
        refine bufState_eq_full _ (by simp [hf']) ?_
        rw [hf', hr', if_pos hc]
      · left
        refine bufState_eq_ahead _ (by simp [hf']) ?_
        rw [hf', hr', if_neg hc]
        push_neg at hc
        omega
    · intro _
      by_cases hc : ((n : Int) = 0 ∨ b.bufferSize ≤ (n : Int))
      · have hfull : bufState (CircularBuffer_Enqueue b data n) = BufState.full := by
          refine bufState_eq_full _ (by simp [hf']) ?_
          rw [hf', hr', if_pos hc]
        rw [hfull]
        refine iff_of_true rfl ?_
        rcases hc with hc | hc
        · exact Or.inl (by exact_mod_cast hc)
        · exact Or.inr hc
      · have hahead : bufState (CircularBuffer_Enqueue b data n) = BufState.ahead := by
          refine bufState_eq_ahead _ (by simp [hf']) ?_
          rw [hf', hr', if_neg hc]
          push_neg at hc
          omega
        rw [hahead]
        refine iff_of_false (by simp) ?_
        push_neg at hc
        rintro (h | h)
        · exact hc.1 (by exact_mod_cast h)
        · omega
    · intro h
      rw [hSe] at h
      exact absurd h.symm (by simp)
  · have hE' : CircularBuffer_IsEmpty b = false := by
      simpa using hE
    by_cases hF : CircularBuffer_IsFull b = true
    · have heq := enqueue_of_full b hF data n
      have hSne : bufState b ≠ BufState.empty := by
        rcases hv with ⟨h1, h2⟩ | h
        · exact absurd (by simp [CircularBuffer_IsEmpty, h1, h2]) hE
        · exact bufState_ne_empty b h.1
      rw [heq]
      exact ⟨hv, hSne, fun h => absurd h hSne, fun h => absurd h hSne, fun _ => rfl⟩
    · have hF' : CircularBuffer_IsFull b = false := by simpa using hF
      have hrange2 : 0 ≤ b.f ∧ b.f < b.bufferSize ∧ 0 ≤ b.r ∧ b.r < b.bufferSize := by
        rcases hv with ⟨h1, h2⟩ | h
        · exact absurd (by simp [CircularBuffer_IsEmpty, h1, h2]) hE
        · exact h
      obtain ⟨hf0, hfN, hr0, hrN⟩ := hrange2
      have hfr : b.f ≠ b.r := by
        intro h
        have hcon : CircularBuffer_IsFull b = true := by
          simp only [CircularBuffer_IsFull, decide_eq_true_eq]
          exact ⟨h, by omega⟩
        rw [hcon] at hF'
        exact absurd hF' (by simp)
      have hSne : bufState b ≠ BufState.empty := bufState_ne_empty b hf0
      have hmain : (CircularBuffer_Enqueue b data n).f = b.f ∧
          ((CircularBuffer_Enqueue b data n).r = (b.r + (n : Int)) % b.bufferSize ∨
            (CircularBuffer_Enqueue b data n).r = b.f) := by
        by_cases hgt : b.r > b.f
        · have henq : CircularBuffer_Enqueue b data n =
              enqueueRearAhead b data n := by
            simp [CircularBuffer_Enqueue, hE', hF', hgt]
          rw [henq]
          exact ⟨enqueueRearAhead_f b data n, enqueueRearAhead_r b data n⟩
        · have hlt : b.r < b.f := by omega
          have hngt : ¬ (b.r > b.f) := hgt
          by_cases h1 : b.r + (n : Int) ≤ b.f
          · constructor
            · simp [CircularBuffer_Enqueue, hE', hF', hngt, hlt, h1]
            · left
              simp [CircularBuffer_Enqueue, hE', hF', hngt, hlt, h1]
          · constructor
            · simp [CircularBuffer_Enqueue, hE', hF', hngt, hlt, h1]
            · right
              simp [CircularBuffer_Enqueue, hE', hF', hngt, hlt, h1]
      obtain ⟨hf', hr'⟩ := hmain
      have hbs : (CircularBuffer_Enqueue b data n).bufferSize = b.bufferSize :=
        (enqueue_sizes b data n).1
      have hval : validCursors (CircularBuffer_Enqueue b data n) := by
        right
        rw [hf', hbs]
        refine ⟨hf0, hfN, ?_⟩
        rcases hr' with h | h
        · rw [h]
          exact ⟨Int.emod_nonneg _ (by omega), Int.emod_lt_of_pos _ hN⟩
        · rw [h]
          exact ⟨hf0, hfN⟩
      refine ⟨hval, ?_, fun h => absurd h hSne, fun h => absurd h hSne, ?_⟩
      · exact bufState_ne_empty _ (by rw [hf']; exact hf0)
      · intro h
        exact absurd h (bufState_ne_full b hfr)

/-! ### Cursor state machine: the dequeue step -/

theorem dequeue_cursor_step (b : circularBuffer_TypeDef) (sink : List Int)
    (off n : Nat) (hN : 0 < b.bufferSize) (hv : validCursors b) :
    validCursors (CircularBuffer_Dequeue b sink off n).1 ∧
    (bufState b = BufState.empty → (CircularBuffer_Dequeue b sink off n).1 = b) ∧
    bufState (CircularBuffer_Dequeue b sink off n).1 ≠ BufState.full := by
  have hnn : (0 : Int) ≤ (n : Int) := Int.natCast_nonneg n
  by_cases hE : CircularBuffer_IsEmpty b = true
  · have hres : (CircularBuffer_Dequeue b sink off n).1 = b := by
      simp [CircularBuffer_Dequeue, hE]
    rw [hres]
    refine ⟨hv, fun _ => rfl, ?_⟩
    simp [bufState, hE]
  · have hE' : CircularBuffer_IsEmpty b = false := by simpa using hE
    have hSne : bufState b ≠ BufState.empty := by
      simp only [bufState, hE', Bool.false_eq_true, if_false]
      split_ifs <;> simp
    have hrange : 0 ≤ b.f ∧ b.f < b.bufferSize ∧ 0 ≤ b.r ∧ b.r < b.bufferSize := by
      rcases hv with ⟨h1, h2⟩ | h
      · exact absurd (by simp [CircularBuffer_IsEmpty, h1, h2]) hE
      · exact h
    obtain ⟨hf0, hfN, hr0, hrN⟩ := hrange
    have hcur : ((CircularBuffer_Dequeue b sink off n).1.f = -1 ∧
          (CircularBuffer_Dequeue b sink off n).1.r = -1) ∨
        ((CircularBuffer_Dequeue b sink off n).1.r = b.r ∧
          0 ≤ (CircularBuffer_Dequeue b sink off n).1.f ∧
          (CircularBuffer_Dequeue b sink off n).1.f < b.bufferSize ∧
          (CircularBuffer_Dequeue b sink off n).1.f ≠ b.r) := by
      by_cases hgt : b.r > b.f
      · by_cases h1 : (n : Int) ≤ b.r - b.f
        · by_cases h2 : b.f + (n : Int) = b.r
          · left
            constructor <;> simp [CircularBuffer_Dequeue, hE', hgt, h1, h2]
          · right
            refine ⟨?_, ?_, ?_, ?_⟩ <;>
              simp [CircularBuffer_Dequeue, hE', hgt, h1, h2] <;> omega
        · have h3 : b.f ≠ b.r := by omega
          right
          refine ⟨?_, ?_, ?_, ?_⟩ <;>
            simp [CircularBuffer_Dequeue, hE', hgt, h1, h3] <;> omega
      · by_cases h1 : b.f + (n : Int) ≤ b.bufferSize
        · by_cases h2 : (b.f + (n : Int)) % b.bufferSize = b.r
          · left
            constructor <;> simp [CircularBuffer_Dequeue, hE', hgt, h1, h2]
          · right
            have hm1 : 0 ≤ (b.f + (n : Int)) % b.bufferSize :=
              Int.emod_nonneg _ (by omega)
            have hm2 : (b.f + (n : Int)) % b.bufferSize < b.bufferSize :=
              Int.emod_lt_of_pos _ hN
            refine ⟨?_, ?_, ?_, ?_⟩ <;>
              simp [CircularBuffer_Dequeue, hE', hgt, h1, h2] <;> omega
        · by_cases h2 : (n : Int) + b.f - b.bufferSize ≤ b.r
          · by_cases h3 : (b.f + (n : Int)) % b.bufferSize = b.r
            · left
              constructor <;> simp [CircularBuffer_Dequeue, hE', hgt, h1, h2, h3]
            · right
              have hm1 : 0 ≤ (b.f + (n : Int)) % b.bufferSize :=
                Int.emod_nonneg _ (by omega)
              have hm2 : (b.f + (n : Int)) % b.bufferSize < b.bufferSize :=
                Int.emod_lt_of_pos _ hN
              refine ⟨?_, ?_, ?_, ?_⟩ <;>
                simp [CircularBuffer_Dequeue, hE', hgt, h1, h2, h3] <;> omega
          · left
            constructor <;> simp [CircularBuffer_Dequeue, hE', hgt, h1, h2]
    have hbs : (CircularBuffer_Dequeue b sink off n).1.bufferSize = b.bufferSize :=
      (dequeue_sizes b sink off n).1
    refine ⟨?_, fun h => absurd h hSne, ?_⟩
    · rcases hcur with ⟨h1, h2⟩ | ⟨h1, h2, h3, h4⟩
      · exact Or.inl ⟨h1, h2⟩
      · right
        rw [hbs, h1]
        exact ⟨h2, h3, hr0, hrN⟩
    · rcases hcur with ⟨h1, h2⟩ | ⟨h1, h2, h3, h4⟩
      · have : CircularBuffer_IsEmpty (CircularBuffer_Dequeue b sink off n).1 = true := by
          simp [CircularBuffer_IsEmpty, h1, h2]
        simp [bufState, this]
      · have hIE : CircularBuffer_IsEmpty (CircularBuffer_Dequeue b sink off n).1 = false := by
          simp only [CircularBuffer_IsEmpty, decide_eq_false_iff_not]
          rintro ⟨ha, hb⟩
          omega
        have hIF : CircularBuffer_IsFull (CircularBuffer_Dequeue b sink off n).1 = false := by
          simp only [CircularBuffer_IsFull, decide_eq_false_iff_not]
          rintro ⟨ha, hb⟩
          rw [h1] at ha
          exact h4 ha
        simp only [bufState, hIE, hIF, Bool.false_eq_true, if_false]
        split_ifs <;> simp

/-! ### Facts about seqList and replicate -/

theorem seqList_length (a : Int) (n : Nat) : (seqList a n).length = n := by
  induction n generalizing a with
  | zero => rfl
  | succ m ih => simp [seqList, ih]

theorem seqList_take (m : Nat) (a : Int) (n : Nat) (h : m ≤ n) :
    (seqList a n).take m = seqList a m := by
  induction m generalizing a n with
  | zero => simp [seqList]
  | succ m ih =>
      cases n with
      | zero => omega
      | succ p =>
          simp only [seqList, List.take_succ_cons]
          rw [ih (a + 1) p (by omega)]

theorem seqList_take_all (a : Int) (n : Nat) : (seqList a n).take n = seqList a n :=
  seqList_take n a n (le_refl n)

theorem seqList_drop (m : Nat) (a : Int) (n : Nat) :
    (seqList a n).drop m = seqList (a + m) (n - m) := by
  induction m generalizing a n with
  | zero => simp
  | succ m ih =>
      cases n with
      | zero => simp [seqList]
      | succ p =>
          simp only [seqList, List.drop_succ_cons]
          rw [ih (a + 1) p]
          congr 1
          · push_cast
            ring
          · omega

theorem replicate_drop (m n : Nat) :
    (List.replicate n (0 : Int)).drop m = List.replicate (n - m) 0 := by
  induction m generalizing n with
  | zero => simp
  | succ m ih =>
      cases n with
      | zero => simp
      | succ p =>
          simp only [List.replicate, List.drop_succ_cons]
          rw [ih p]
          congr 1
          omega

/-! ### Enqueue on a full buffer -/

/-- Claim C8: when the buffer is full (IsFull returns 1), Enqueue with
any count is a no-op: front, rear and the whole storage are unchanged
and the new data is silently discarded. -/
theorem C8_enqueue_full_noop (b : circularBuffer_TypeDef) (data : List Int)
    (n : Nat) (h : CircularBuffer_IsFull b = true) :
    CircularBuffer_Enqueue b data n = b :=
  enqueue_of_full b h data n

theorem C8_enqueue_full_noop_witness :
    CircularBuffer_IsFull fullBufC8 = true ∧
    CircularBuffer_Enqueue fullBufC8 [5] 1 = fullBufC8 :=
  ⟨by decide, C8_enqueue_full_noop fullBufC8 [5] 1 (by decide)⟩

/-! ### Claim C5: enqueue into a full buffer and the overwrite policy -/

/-- Claim C5 counterexample: with a full capacity-1 buffer holding [7],
enqueueing the single element 9 leaves the content [7]: the most recent
1 of the combined sequence [7, 9] would be [9], so the claimed
keep-the-newest policy fails; the code keeps the oldest data and drops
the new element. -/
theorem C5_counterexample :
    CircularBuffer_IsFull fullBufC5 = true ∧
    CircularBuffer_Enqueue fullBufC5 [9] 1 = fullBufC5 ∧
    liveBytes (CircularBuffer_Enqueue fullBufC5 [9] 1) = [7] ∧
    liveBytes (CircularBuffer_Enqueue fullBufC5 [9] 1) ≠ [9] := by decide

/-- Claim C5 as amended: with the buffer holding exactly capacity live
elements (full), enqueuing M further elements leaves the buffer full
and its content equal to the ORIGINAL capacity-worth of elements: the M
new elements are dropped (newest lost), not the oldest. -/
theorem C5_full_enqueue_keeps_old (b : circularBuffer_TypeDef)
    (data : List Int) (M : Nat) (h : CircularBuffer_IsFull b = true) :
    CircularBuffer_IsFull (CircularBuffer_Enqueue b data M) = true ∧
    liveBytes (CircularBuffer_Enqueue b data M) = liveBytes b := by
  rw [enqueue_of_full b h data M]
  exact ⟨h, rfl⟩

theorem C5_full_enqueue_keeps_old_witness :
    CircularBuffer_IsFull fullBufC5 = true ∧
    (CircularBuffer_IsFull (CircularBuffer_Enqueue fullBufC5 [9] 1) = true ∧
      liveBytes (CircularBuffer_Enqueue fullBufC5 [9] 1) = liveBytes fullBufC5) :=
  ⟨by decide, C5_full_enqueue_keeps_old fullBufC5 [9] 1 (by decide)⟩

/-! ### Claim C9: element size mismatch -/

/-- Claim C9: if the extractor and buffer element sizes differ, every
call of DSP_frameExtraction_IsNextFrameReady returns FRAME_ERROR and
leaves both structures unchanged, whatever the fill state or phase. -/
theorem C9_size_mismatch_error (b : circularBuffer_TypeDef)
    (fr : dspFrame_TypeDef) (h : fr.elementSize ≠ b.elementSize) :
    DSP_frameExtraction_IsNextFrameReady b fr =
      (dspFrame_result.FRAME_ERROR, b, fr) := by
  simp only [DSP_frameExtraction_IsNextFrameReady, h, if_true]
  simp [h]

theorem C9_size_mismatch_error_witness :
    frC9.elementSize ≠ bufC9.elementSize ∧
    DSP_frameExtraction_IsNextFrameReady bufC9 frC9 =
      (dspFrame_result.FRAME_ERROR, bufC9, frC9) :=
  ⟨by decide, C9_size_mismatch_error bufC9 frC9 (by decide)⟩

/-! ### Claim C10: a zero-size enqueue on an empty buffer makes it full -/

/-- Claim C10: Enqueue with count 0 on an empty buffer normalizes the
cursors to 0 and performs an empty copy, so afterwards IsEmpty is 0 and
IsFull is 1 although nothing was stored (the storage is unchanged), and
every later Enqueue is silently dropped. -/
theorem C10_zero_enqueue_empty_to_full (b : circularBuffer_TypeDef)
    (data : List Int) (hE : CircularBuffer_IsEmpty b = true)
    (hN : 0 < b.bufferSize) :
    (CircularBuffer_Enqueue b data 0).f = 0 ∧
    (CircularBuffer_Enqueue b data 0).r = 0 ∧
    (CircularBuffer_Enqueue b data 0).buf = b.buf ∧
    CircularBuffer_IsEmpty (CircularBuffer_Enqueue b data 0) = false ∧
    CircularBuffer_IsFull (CircularBuffer_Enqueue b data 0) = true ∧
    ∀ (d : List Int) (n : Nat),
      CircularBuffer_Enqueue (CircularBuffer_Enqueue b data 0) d n =
        CircularBuffer_Enqueue b data 0 := by
  have hb : CircularBuffer_Enqueue b data 0 = { b with f := 0, r := 0 } := by
    simp only [CircularBuffer_Enqueue, hE, if_true]
    simp only [enqueueRearAhead]
    rw [if_pos (by simpa using le_of_lt hN)]
    simp [storeBytes_nil, readBytes, Int.zero_emod]
  rw [hb]
  refine ⟨rfl, rfl, rfl, by simp [CircularBuffer_IsEmpty],
    by simp [CircularBuffer_IsFull], ?_⟩
  intro d n
  exact enqueue_of_full _ (by simp [CircularBuffer_IsFull]) d n

theorem C10_zero_enqueue_empty_to_full_witness :
    (CircularBuffer_IsEmpty emptyBufC10 = true ∧ 0 < emptyBufC10.bufferSize) ∧
    CircularBuffer_IsFull (CircularBuffer_Enqueue emptyBufC10 [] 0) = true :=
  ⟨⟨by decide, by decide⟩,
    (C10_zero_enqueue_empty_to_full emptyBufC10 [] (by decide) (by decide)).2.2.2.2.1⟩

/-! ### Claim C6: transitions of the cursor state machine -/

/-- Claim C6 counterexample: from the Empty state, Enqueue with count 0
yields the Full cursor pair (0, 0), not an Ahead state, and it does so
without storing anything (the storage is unchanged), so a full pair
does not imply capacity live elements either. -/
theorem C6_counterexample :
    CircularBuffer_IsEmpty emptyBufC6 = true ∧
    bufState emptyBufC6 = BufState.empty ∧
    bufState (CircularBuffer_Enqueue emptyBufC6 [] 0) = BufState.full ∧
    bufState (CircularBuffer_Enqueue emptyBufC6 [] 0) ≠ BufState.ahead ∧
    (CircularBuffer_Enqueue emptyBufC6 [] 0).buf = emptyBufC6.buf := by
  decide

/-- Claim C6 as amended: on every reachable buffer the cursors are
valid (both -1, or both in [0, capacity-1]); Enqueue maps Empty to
Ahead or to Full (Full exactly when the count is 0 or at least the
capacity), maps Full to itself unchanged, and never produces Empty;
Dequeue is the identity on Empty and never produces the Full cursor
pair.  A full pair therefore arises either genuinely or from a
zero-count enqueue, and no transition ever leaves the valid cursor
range. -/
theorem C6_cursor_state_machine (b : circularBuffer_TypeDef)
    (hb : Reachable b) :
    validCursors b ∧
    (∀ (data : List Int) (n : Nat),
      validCursors (CircularBuffer_Enqueue b data n) ∧
      bufState (CircularBuffer_Enqueue b data n) ≠ BufState.empty ∧
      (bufState b = BufState.empty →
        bufState (CircularBuffer_Enqueue b data n) = BufState.ahead ∨
        bufState (CircularBuffer_Enqueue b data n) = BufState.full) ∧
      (bufState b = BufState.empty →
        (bufState (CircularBuffer_Enqueue b data n) = BufState.full ↔
          (n = 0 ∨ b.bufferSize ≤ (n : Int)))) ∧
      (bufState b = BufState.full → CircularBuffer_Enqueue b data n = b)) ∧
    (∀ (sink : List Int) (off n : Nat),
      validCursors (CircularBuffer_Dequeue b sink off n).1 ∧
      (bufState b = BufState.empty →
        (CircularBuffer_Dequeue b sink off n).1 = b) ∧
      bufState (CircularBuffer_Dequeue b sink off n).1 ≠ BufState.full) := by
  have hinv : 0 < b.bufferSize ∧ validCursors b := by
    induction hb with
    | init pBuf es N hes hN =>
        exact ⟨hN, Or.inl ⟨rfl, rfl⟩⟩
    | enq b data n h ih =>
        refine ⟨?_, (enqueue_cursor_step b data n ih.1 ih.2).1⟩
        rw [(enqueue_sizes b data n).1]
        exact ih.1
    | deq b sink off n h ih =>
        refine ⟨?_, (dequeue_cursor_step b sink off n ih.1 ih.2).1⟩
        rw [(dequeue_sizes b sink off n).1]
        exact ih.1
  exact ⟨hinv.2,
    fun data n => enqueue_cursor_step b data n hinv.1 hinv.2,
    fun sink off n => dequeue_cursor_step b sink off n hinv.1 hinv.2⟩

theorem C6_cursor_state_machine_witness :
    Reachable (CircularBuffer_Init (List.replicate 2 0) 1 2) ∧
    validCursors (CircularBuffer_Init (List.replicate 2 0) 1 2) :=
  ⟨Reachable.init (List.replicate 2 0) 1 2 (by decide) (by decide),
    (C6_cursor_state_machine (CircularBuffer_Init (List.replicate 2 0) 1 2)
      (Reachable.init (List.replicate 2 0) 1 2 (by decide) (by decide))).1⟩

/-! ### Claim C1: wrap correctness of the enqueue/dequeue cycle -/

theorem c1_step0 (N : Nat) :
    CircularBuffer_Init (List.replicate N 0) 1 N = c1b0 N := by
  simp [CircularBuffer_Init, c1b0, storeBytes_zero_full]

theorem c1_step1 (N : Nat) :
    CircularBuffer_Enqueue (c1b0 N) (seqList 1 N) N = c1b1 N := by
  simp [CircularBuffer_Enqueue, CircularBuffer_IsEmpty, c1b0, c1b1,
    enqueueRearAhead, readBytes, seqList_take_all, storeBytes_zero_full,
    seqList_length, Int.emod_self]

theorem c1_step2 (N k : Nat) (hk0 : 0 < k) (hkN : k < N) :
    CircularBuffer_Dequeue (c1b1 N) (List.replicate k 0) 0 k =
      (c1b2 N k, seqList 1 k) := by
  simp [CircularBuffer_Dequeue, CircularBuffer_IsEmpty, c1b1, c1b2,
    memsetZero, readBytes, storeBytes_zero,
    (show ((k : Int) ≤ (N : Int)) from by omega),
    (show ((k : Int) % (N : Int)) = (k : Int) from
      Int.emod_eq_of_lt (by omega) (by omega)),
    (show ¬((k : Int) = 0) from by omega),
    seqList_take k 1 N (le_of_lt hkN), storeBytes_zero_full, seqList_length,
    seqList_drop,
    (show (1 : Int) + (k : Int) = (k : Int) + 1 from by ring)]

theorem c1_step3 (N k : Nat) (hk0 : 0 < k) (hkN : k < N) :
    CircularBuffer_Enqueue (c1b2 N k) (seqList ((N : Int) + 1) k) k =
      c1b3 N k := by
  simp [CircularBuffer_Enqueue, CircularBuffer_IsEmpty, CircularBuffer_IsFull,
    c1b2, c1b3, enqueueRearAhead, readBytes, storeBytes_zero,
    (show ¬((k : Int) = 0) from by omega),
    (show ¬((0 : Int) > (k : Int)) from by omega),
    (show ((0 : Int) < (k : Int)) from by omega),
    (show ((k : Int) % (N : Int)) = (k : Int) from
      Int.emod_eq_of_lt (by omega) (by omega)),
    seqList_take_all, seqList_length,
    (show (List.replicate k (0 : Int) ++
        seqList ((k : Int) + 1) (N - k)).drop k =
      seqList ((k : Int) + 1) (N - k) from List.drop_left' (by simp))]

theorem c1_step4 (N k : Nat) (hk0 : 0 < k) (hkN : k < N) :
    CircularBuffer_Dequeue (c1b3 N k) (List.replicate N 0) 0 N =
      (c1b4 N k, seqList ((k : Int) + 1) (N - k) ++ seqList ((N : Int) + 1) k) := by
  have hds : (seqList ((N : Int) + 1) k ++
      seqList ((k : Int) + 1) (N - k)).drop k =
      seqList ((k : Int) + 1) (N - k) := List.drop_left' (by simp [seqList_length])
  have hts : (seqList ((N : Int) + 1) k ++
      seqList ((k : Int) + 1) (N - k)).take k =
      seqList ((N : Int) + 1) k := List.take_left' (by simp [seqList_length])
  have hdrop3 : (seqList ((N : Int) + 1) k ++
      seqList ((k : Int) + 1) (N - k)).drop N = [] := by
    apply List.drop_eq_nil_of_le
    simp [seqList_length]
    omega
  have hdo : (seqList ((k : Int) + 1) (N - k) ++
      List.replicate k (0 : Int)).drop N = [] := by
    apply List.drop_eq_nil_of_le
    simp [seqList_length]
    omega
  have htb : (seqList ((N : Int) + 1) k ++
      List.replicate (N - k) (0 : Int)).take k =
      seqList ((N : Int) + 1) k := List.take_left' (by simp [seqList_length])
  have hdb : (seqList ((N : Int) + 1) k ++
      List.replicate (N - k) (0 : Int)).drop k =
      List.replicate (N - k) (0 : Int) := List.drop_left' (by simp [seqList_length])
  simp [CircularBuffer_Dequeue, CircularBuffer_IsEmpty, c1b3, c1b4,
    memsetZero, readBytes, storeBytes, replicate_drop,
    (show ¬((k : Int) = -1) from by omega),
    (show ¬((k : Int) + (N : Int) ≤ (N : Int)) from by omega),
    (show ((N : Int) - (k : Int)).toNat = N - k from by omega),
    (show ((N : Int) + (k : Int) - (N : Int)) = (k : Int) from by ring),
    (show (((k : Int) + (N : Int)) % (N : Int)) = (k : Int) from by
      rw [show (k : Int) + (N : Int) = (k : Int) + (N : Int) * 1 from by ring,
        Int.add_mul_emod_self_left]
      exact Int.emod_eq_of_lt (by omega) (by omega)),
    hds, hts, hdrop3, hdo, htb, hdb, seqList_length, seqList_take_all,
    (show N - (N - k) = k from by omega),
    (show k + (N - k) = N from by omega),
    (show (N - k) + k = N from by omega)]

/-- Claim C1: starting from a freshly initialized one-byte-element
buffer of capacity N, enqueueing 1..N, dequeueing k (0 < k < N),
enqueueing N+1..N+k, and dequeueing N elements returns first 1..k and
then exactly k+1..N, N+1..N+k in order, leaving the buffer empty. -/
theorem C1_wrap_correctness (N k : Nat) (hk0 : 0 < k) (hkN : k < N) :
    (CircularBuffer_Dequeue (CircularBuffer_Enqueue (CircularBuffer_Init
        (List.replicate N 0) 1 N) (seqList 1 N) N)
      (List.replicate k 0) 0 k).2 = seqList 1 k ∧
    (CircularBuffer_Dequeue (CircularBuffer_Enqueue (CircularBuffer_Dequeue
          (CircularBuffer_Enqueue (CircularBuffer_Init (List.replicate N 0) 1 N)
            (seqList 1 N) N) (List.replicate k 0) 0 k).1
        (seqList ((N : Int) + 1) k) k) (List.replicate N 0) 0 N).2 =
      seqList ((k : Int) + 1) (N - k) ++ seqList ((N : Int) + 1) k ∧
    CircularBuffer_IsEmpty (CircularBuffer_Dequeue (CircularBuffer_Enqueue
        (CircularBuffer_Dequeue (CircularBuffer_Enqueue (CircularBuffer_Init
            (List.replicate N 0) 1 N) (seqList 1 N) N)
          (List.replicate k 0) 0 k).1
        (seqList ((N : Int) + 1) k) k) (List.replicate N 0) 0 N).1 = true := by
  rw [c1_step0, c1_step1, c1_step2 N k hk0 hkN]
  refine ⟨rfl, ?_, ?_⟩
  · rw [show (c1b2 N k, seqList 1 k).1 = c1b2 N k from rfl,
      c1_step3 N k hk0 hkN, c1_step4 N k hk0 hkN]
  · rw [show (c1b2 N k, seqList 1 k).1 = c1b2 N k from rfl,
      c1_step3 N k hk0 hkN, c1_step4 N k hk0 hkN]
    rfl

theorem C1_wrap_correctness_witness :
    (0 < 2 ∧ 2 < 5) ∧
    (CircularBuffer_Dequeue (CircularBuffer_Enqueue (CircularBuffer_Dequeue
          (CircularBuffer_Enqueue (CircularBuffer_Init (List.replicate 5 0) 1 5)
            (seqList 1 5) 5) (List.replicate 2 0) 0 2).1
        (seqList ((5 : Int) + 1) 2) 2) (List.replicate 5 0) 0 5).2 =
      seqList ((2 : Int) + 1) (5 - 2) ++ seqList ((5 : Int) + 1) 2 :=
  ⟨⟨by decide, by decide⟩,
    (C1_wrap_correctness 5 2 (by decide) (by decide)).2.1⟩

/-! ### Claim C2: the wrapping enqueue corrupts a live element -/

/-- Claim C2 exhibit: enqueueing two further elements wraps, and the
first wrap section is copied to byte offset r = 1 instead of
elementSize*r = 2 (circularBuffer.c line 133); the second byte of the
live element changes from 11 to 20 while still retrievable (front is
unchanged and the buffer reports full), so a live element was
overwritten in place. -/
theorem C2_live_element_overwritten :
    bufC2.f = 0 ∧ bufC2.r = 1 ∧
    readBytes bufC2.buf 0 2 = [10, 11] ∧
    (CircularBuffer_Enqueue bufC2 [20, 21, 22, 23] 2).f = 0 ∧
    CircularBuffer_IsFull (CircularBuffer_Enqueue bufC2 [20, 21, 22, 23] 2) = true ∧
    readBytes (CircularBuffer_Enqueue bufC2 [20, 21, 22, 23] 2).buf 0 2 = [10, 20] := by
  decide

/-! ### Claim C7: oversized dequeue in the rear-ahead state -/

/-- Claim C7 exhibit: dequeuing 2 elements from a rear-ahead buffer
holding only 1 copies that element to the caller, but the source then
executes targetBuf->r = targetBuf->r (line 221) instead of advancing
front, so the cursors stay at f = 0, r = 1: the buffer is not empty
afterwards and its (zeroed) live span is still accounted as one live
element, against the claimed advance-front-and-reset behavior. -/
theorem C7_oversized_dequeue_leaves_cursors :
    bufC7.f = 0 ∧ bufC7.r = 1 ∧
    (CircularBuffer_Dequeue bufC7 [0, 0] 0 2).2 = [7, 0] ∧
    (CircularBuffer_Dequeue bufC7 [0, 0] 0 2).1.f = 0 ∧
    (CircularBuffer_Dequeue bufC7 [0, 0] 0 2).1.r = 1 ∧
    CircularBuffer_IsEmpty (CircularBuffer_Dequeue bufC7 [0, 0] 0 2).1 = false ∧
    (CircularBuffer_Dequeue bufC7 [0, 0] 0 2).1.buf = [0, 0] := by
  decide

/-! ### Claim C4: bootstrap readiness condition -/

/-- Claim C4 counterexample: a full buffer holds capacity = 2 live
elements, which is at least frameSize = 2, yet the bootstrap phase
returns FRAME_IS_NOT_READY because its test r - f >= frameSize and
f /= r ignores the wrapped and full cursor cases: the claimed
live-count iff fails. -/
theorem C4_counterexample :
    CircularBuffer_IsFull bufC4 = true ∧
    bufC4.bufferSize = 2 ∧ frC4.frameSize = 2 ∧
    frC4.firstFrameCompleteFlag = 0 ∧
    frC4.elementSize = bufC4.elementSize ∧
    (DSP_frameExtraction_IsNextFrameReady bufC4 frC4).1 =
      dspFrame_result.FRAME_IS_NOT_READY := by
  decide

/-- The bootstrap dequeue of a ready first frame: a closed form for
CircularBuffer_Dequeue on a rear-ahead buffer when the requested count
fits inside the live span and the sink has exactly the copied size. -/
theorem dequeue_ahead_exact (b : circularBuffer_TypeDef) (sink : List Int)
    (n : Int) (hn : 0 ≤ n)
    (hf0 : 0 ≤ b.f) (hrN : b.r < b.bufferSize)
    (hgt : b.r > b.f) (hle : n ≤ b.r - b.f)
    (hespos : 0 < b.elementSize)
    (hbuf : (b.buf.length : Int) = b.elementSize * b.bufferSize)
    (hsink : (sink.length : Int) = b.elementSize * n) :
    CircularBuffer_Dequeue b sink 0 n.toNat =
      ((if b.f + n = b.r then
          { b with
            buf := memsetZero b.buf (b.elementSize * b.f).toNat
              (b.elementSize * n).toNat
            f := -1, r := -1 }
        else
          { b with
            buf := memsetZero b.buf (b.elementSize * b.f).toNat
              (b.elementSize * n).toNat
            f := b.f + n }),
        readBytes b.buf (b.elementSize * b.f).toNat (b.elementSize * n).toNat) := by
  have htn : ((n.toNat : Nat) : Int) = n := Int.toNat_of_nonneg hn
  have hnotE : CircularBuffer_IsEmpty b = false := by
    simp only [CircularBuffer_IsEmpty, decide_eq_false_iff_not]
    rintro ⟨h1, h2⟩
    omega
  have hsum : b.elementSize * b.f + b.elementSize * n ≤
      b.elementSize * b.bufferSize := by
    have h1 : b.f + n ≤ b.bufferSize := by omega
    calc b.elementSize * b.f + b.elementSize * n
        = b.elementSize * (b.f + n) := by ring
      _ ≤ b.elementSize * b.bufferSize :=
          mul_le_mul_of_nonneg_left h1 (le_of_lt hespos)
  have hff : 0 ≤ b.elementSize * b.f := mul_nonneg (le_of_lt hespos) hf0
  have hnn : 0 ≤ b.elementSize * n := mul_nonneg (le_of_lt hespos) hn
  have hread : (readBytes b.buf (b.elementSize * b.f).toNat
      (b.elementSize * n).toNat).length = (b.elementSize * n).toNat := by
    apply readBytes_length
    omega
  have hout : storeBytes sink 0 (readBytes b.buf (b.elementSize * b.f).toNat
      (b.elementSize * n).toNat) =
      readBytes b.buf (b.elementSize * b.f).toNat (b.elementSize * n).toNat := by
    apply storeBytes_zero_full
    rw [hread]
    omega
  simp only [CircularBuffer_Dequeue, hnotE, Bool.false_eq_true, if_false,
    if_pos hgt, htn]
  rw [if_pos (by omega : (n : Int) ≤ b.r - b.f)]
  simp only [hout]
  by_cases hc : b.f + n = b.r
  · rw [if_pos hc, if_pos hc]
  · rw [if_neg hc, if_neg hc]

/-- Claim C4 as amended: with the first frame not yet done and matching
element sizes, the pull is Ready exactly when rear minus front is at
least frameSize and the cursors differ (the code does NOT account for
the wrapped rear-behind case nor for the full cursor pair, where it
reports NotReady despite a sufficient live count); on Ready it dequeues
exactly frameSize oldest elements into the frame storage, saves the
last overlap elements of the frame as the carry, marks the first frame
done, and advances the buffer front by frameSize (resetting to empty
when the live span is consumed exactly). -/
theorem C4_bootstrap_ready_iff (b : circularBuffer_TypeDef)
    (fr : dspFrame_TypeDef)
    (hes : fr.elementSize = b.elementSize)
    (hflag : fr.firstFrameCompleteFlag = 0)
    (hespos : 0 < b.elementSize)
    (hov : 0 < fr.overlap) (hovfs : fr.overlap < fr.frameSize)
    (hcur : (b.f = -1 ∧ b.r = -1) ∨
      (0 ≤ b.f ∧ b.f < b.bufferSize ∧ 0 ≤ b.r ∧ b.r < b.bufferSize))
    (hbuf : (b.buf.length : Int) = b.elementSize * b.bufferSize)
    (hfrm : (fr.frame.length : Int) = fr.elementSize * fr.frameSize) :
    ((DSP_frameExtraction_IsNextFrameReady b fr).1 =
        dspFrame_result.FRAME_IS_READY ↔
      (b.r - b.f ≥ fr.frameSize ∧ b.f ≠ b.r)) ∧
    (b.r - b.f ≥ fr.frameSize ∧ b.f ≠ b.r →
      (DSP_frameExtraction_IsNextFrameReady b fr).2.2.firstFrameCompleteFlag = 1 ∧
      (DSP_frameExtraction_IsNextFrameReady b fr).2.2.frame =
        readBytes b.buf (b.elementSize * b.f).toNat
          (b.elementSize * fr.frameSize).toNat ∧
      (DSP_frameExtraction_IsNextFrameReady b fr).2.2.p_previousOverlap =
        readBytes (DSP_frameExtraction_IsNextFrameReady b fr).2.2.frame
          (fr.elementSize * (fr.frameSize - fr.overlap)).toNat
          (fr.elementSize * fr.overlap).toNat ∧
      (b.f + fr.frameSize = b.r →
        (DSP_frameExtraction_IsNextFrameReady b fr).2.1.f = -1 ∧
        (DSP_frameExtraction_IsNextFrameReady b fr).2.1.r = -1) ∧
      (b.f + fr.frameSize ≠ b.r →
        (DSP_frameExtraction_IsNextFrameReady b fr).2.1.f = b.f + fr.frameSize ∧
        (DSP_frameExtraction_IsNextFrameReady b fr).2.1.r = b.r)) := by
  have hes2 : ¬ (fr.elementSize ≠ b.elementSize) := by simp [hes]
  by_cases hcond : b.r - b.f ≥ fr.frameSize ∧ b.f ≠ b.r
  · obtain ⟨hge, hne⟩ := hcond
    have hval : 0 ≤ b.f ∧ b.f < b.bufferSize ∧ 0 ≤ b.r ∧ b.r < b.bufferSize := by
      rcases hcur with ⟨h1, h2⟩ | h
      · exact absurd (h1.trans h2.symm) hne
      · exact h
    obtain ⟨hf0, hfN, hr0, hrN⟩ := hval
    have hgt : b.r > b.f := by omega
    have hfs0 : 0 ≤ fr.frameSize := by omega
    have hdeq := dequeue_ahead_exact b fr.frame fr.frameSize hfs0 hf0 hrN hgt
      (by omega) hespos hbuf (by rw [hfrm, hes])
    have hreadlen : (readBytes b.buf (b.elementSize * b.f).toNat
        (b.elementSize * fr.frameSize).toNat).length =
        (b.elementSize * fr.frameSize).toNat := by
      apply readBytes_length
      have h1 : b.f + fr.frameSize ≤ b.bufferSize := by omega
      have h2 : b.elementSize * b.f + b.elementSize * fr.frameSize ≤
          b.elementSize * b.bufferSize := by
        calc b.elementSize * b.f + b.elementSize * fr.frameSize
            = b.elementSize * (b.f + fr.frameSize) := by ring
          _ ≤ b.elementSize * b.bufferSize :=
              mul_le_mul_of_nonneg_left h1 (le_of_lt hespos)
      have h3 : 0 ≤ b.elementSize * b.f := mul_nonneg (le_of_lt hespos) hf0
      have h4 : 0 ≤ b.elementSize * fr.frameSize :=
        mul_nonneg (le_of_lt hespos) hfs0
      omega
    have hcarry : storeBytes
        (List.replicate (fr.overlap * fr.elementSize).toNat 0) 0
        (readBytes (readBytes b.buf (b.elementSize * b.f).toNat
            (b.elementSize * fr.frameSize).toNat)
          (fr.elementSize * (fr.frameSize - fr.overlap)).toNat
          (fr.elementSize * fr.overlap).toNat) =
        readBytes (readBytes b.buf (b.elementSize * b.f).toNat
            (b.elementSize * fr.frameSize).toNat)
          (fr.elementSize * (fr.frameSize - fr.overlap)).toNat
          (fr.elementSize * fr.overlap).toNat := by
      apply storeBytes_zero_full
      rw [readBytes_length, List.length_replicate]
      · rw [hes]
        have : b.elementSize * fr.overlap = fr.overlap * b.elementSize := by ring
        omega
      · rw [hreadlen, hes]
        have h3 : fr.frameSize - fr.overlap ≥ 0 := by omega
        have h4 : b.elementSize * (fr.frameSize - fr.overlap) +
            b.elementSize * fr.overlap = b.elementSize * fr.frameSize := by ring
        have h5 : 0 ≤ b.elementSize * (fr.frameSize - fr.overlap) :=
          mul_nonneg (le_of_lt hespos) h3
        have h6 : 0 ≤ b.elementSize * fr.overlap :=
          mul_nonneg (le_of_lt hespos) (by omega)
        omega
    refine ⟨?_, ?_⟩
    · simp [DSP_frameExtraction_IsNextFrameReady, hes2, hflag, hge, hne, hdeq]
    · intro _
      refine ⟨?_, ?_, ?_, ?_, ?_⟩
      · simp [DSP_frameExtraction_IsNextFrameReady, hes2, hflag, hge, hne, hdeq]
      · by_cases hc : b.f + fr.frameSize = b.r
        · simp [DSP_frameExtraction_IsNextFrameReady, hes2, hflag, hge, hne,
            hdeq, hc]
        · simp [DSP_frameExtraction_IsNextFrameReady, hes2, hflag, hge, hne,
            hdeq, hc]
      · by_cases hc : b.f + fr.frameSize = b.r
        · simp [DSP_frameExtraction_IsNextFrameReady, hes2, hflag, hge, hne,
            hdeq, hc, hcarry]
        · simp [DSP_frameExtraction_IsNextFrameReady, hes2, hflag, hge, hne,
            hdeq, hc, hcarry]
      · intro hc
        simp [DSP_frameExtraction_IsNextFrameReady, hes2, hflag, hge, hne,
          hdeq, hc]
      · intro hc
        simp [DSP_frameExtraction_IsNextFrameReady, hes2, hflag, hge, hne,
          hdeq, hc]
  · have hready : DSP_frameExtraction_IsNextFrameReady b fr =
        (dspFrame_result.FRAME_IS_NOT_READY, b, fr) := by
      simp [DSP_frameExtraction_IsNextFrameReady, hes2, hflag, hcond]
    rw [hready]
    refine ⟨iff_of_false (by simp) hcond, fun h => absurd h hcond⟩

theorem C4_bootstrap_ready_iff_witness :
    (frC4w.elementSize = bufC4w.elementSize ∧
      frC4w.firstFrameCompleteFlag = 0 ∧ 0 < bufC4w.elementSize) ∧
    ((DSP_frameExtraction_IsNextFrameReady bufC4w frC4w).1 =
        dspFrame_result.FRAME_IS_READY ↔
      (bufC4w.r - bufC4w.f ≥ frC4w.frameSize ∧ bufC4w.f ≠ bufC4w.r)) :=
  ⟨⟨by decide, by decide, by decide⟩,
    (C4_bootstrap_ready_iff bufC4w frC4w (by decide) (by decide) (by decide)
      (by decide) (by decide) (Or.inr (by decide)) (by decide) (by decide)).1⟩

/-! ### Claim C3: overlapped frame extraction, element by element -/

/-- Claim C3 counterexample: with capacity exactly 4 (allowed by the
claimed "capacity at least 4"), the buffer is FULL after the fourth
enqueue, the bootstrap test r - f >= frameSize fails on the full
cursor pair, and every enqueue afterwards is a silent drop on a full
buffer: no frame is ever Ready, against the claimed three Ready
frames. -/
theorem C3_counterexample :
    pullPerEnqueue (CircularBuffer_Init (List.replicate 4 0) 1 4)
      (DSP_frameExtraction_Init (List.replicate 4 0) 1 4 2)
      [1, 2, 3, 4, 5, 6, 7, 8] =
    List.replicate 8 (dspFrame_result.FRAME_IS_NOT_READY, [0, 0, 0, 0]) := by
  decide

/-- Claim C3 as amended: with frameSize 4, overlap 2, one-byte elements
on both sides and capacity at least 5 (capacity 4 is excluded: there
the buffer fills before the first frame and nothing is ever ready),
enqueueing 1..8 one at a time and pulling after each enqueue yields
Ready exactly at the 4th, 6th and 8th pulls with frame contents
[1,2,3,4], [3,4,5,6], [5,6,7,8]; the first two elements of each later
ready frame repeat the last two of the previous one. -/
theorem C3_frame_overlap (N : Nat) (hN : 5 ≤ N) :
    pullPerEnqueue (CircularBuffer_Init (List.replicate N 0) 1 N)
      (DSP_frameExtraction_Init (List.replicate 4 0) 1 4 2)
      [1, 2, 3, 4, 5, 6, 7, 8] =
    [(dspFrame_result.FRAME_IS_NOT_READY, [0, 0, 0, 0]),
     (dspFrame_result.FRAME_IS_NOT_READY, [0, 0, 0, 0]),
     (dspFrame_result.FRAME_IS_NOT_READY, [0, 0, 0, 0]),
     (dspFrame_result.FRAME_IS_READY, [1, 2, 3, 4]),
     (dspFrame_result.FRAME_IS_NOT_READY, [1, 2, 3, 4]),
     (dspFrame_result.FRAME_IS_READY, [3, 4, 5, 6]),
     (dspFrame_result.FRAME_IS_NOT_READY, [3, 4, 5, 6]),
     (dspFrame_result.FRAME_IS_READY, [5, 6, 7, 8])] ∧
    List.take 2 [3, 4, 5, 6] = List.drop 2 ([1, 2, 3, 4] : List Int) ∧
    List.take 2 [5, 6, 7, 8] = List.drop 2 ([3, 4, 5, 6] : List Int) := by
  have e1 : (1:Int) % (N:Int) = 1 := Int.emod_eq_of_lt (by omega) (by omega)
  have e2 : (2:Int) % (N:Int) = 2 := Int.emod_eq_of_lt (by omega) (by omega)
  have e3 : (3:Int) % (N:Int) = 3 := Int.emod_eq_of_lt (by omega) (by omega)
  have e4 : (4:Int) % (N:Int) = 4 := Int.emod_eq_of_lt (by omega) (by omega)
  have c1 : (1:Int) ≤ (N:Int) := by omega
  have c2 : (2:Int) ≤ (N:Int) := by omega
  have c3 : (3:Int) ≤ (N:Int) := by omega
  have c4 : (4:Int) ≤ (N:Int) := by omega
  have hinit : CircularBuffer_Init (List.replicate N 0) 1 N =
      { buf := List.replicate N 0, r := -1, f := -1, bufferSize := (N : Int),
        elementSize := 1 } := by
    simp [CircularBuffer_Init, storeBytes_zero_full]
  have hfr0 : DSP_frameExtraction_Init (List.replicate 4 0) 1 4 2 =
      { frame := [0, 0, 0, 0], frameSize := 4, overlap := 2, elementSize := 1,
        firstFrameCompleteFlag := 0, p_previousOverlap := [] } := by
    simp [DSP_frameExtraction_Init, storeBytes]
  have he1 : CircularBuffer_Enqueue
      { buf := List.replicate N 0, r := -1, f := -1, bufferSize := (N : Int),
        elementSize := 1 } [1] 1 =
      { buf := 1 :: List.replicate (N - 1) 0, r := 1, f := 0,
        bufferSize := (N : Int), elementSize := 1 } := by
    simp [CircularBuffer_Enqueue, CircularBuffer_IsEmpty, enqueueRearAhead,
      readBytes, storeBytes, replicate_drop, e1, c1]
  have hp1 : DSP_frameExtraction_IsNextFrameReady
      { buf := 1 :: List.replicate (N - 1) 0, r := 1, f := 0,
        bufferSize := (N : Int), elementSize := 1 }
      { frame := [0, 0, 0, 0], frameSize := 4, overlap := 2, elementSize := 1,
        firstFrameCompleteFlag := 0, p_previousOverlap := [] } =
      (dspFrame_result.FRAME_IS_NOT_READY,
        { buf := 1 :: List.replicate (N - 1) 0, r := 1, f := 0,
          bufferSize := (N : Int), elementSize := 1 },
        { frame := [0, 0, 0, 0], frameSize := 4, overlap := 2, elementSize := 1,
          firstFrameCompleteFlag := 0, p_previousOverlap := [] }) := by
    simp [DSP_frameExtraction_IsNextFrameReady]
  have he2 : CircularBuffer_Enqueue
      { buf := 1 :: List.replicate (N - 1) 0, r := 1, f := 0,
        bufferSize := (N : Int), elementSize := 1 } [2] 1 =
      { buf := 1 :: 2 :: List.replicate (N - 2) 0, r := 2, f := 0,
        bufferSize := (N : Int), elementSize := 1 } := by
    simp [CircularBuffer_Enqueue, CircularBuffer_IsEmpty, CircularBuffer_IsFull,
      enqueueRearAhead, readBytes, storeBytes, replicate_drop, e2,
      (show (1:Int) + 1 ≤ (N:Int) from by omega),
      (show (2 : Nat) ≤ N from by omega),
      (show (N - 1 : Nat) - 1 = N - 2 from by omega)]
  have hp2 : DSP_frameExtraction_IsNextFrameReady
      { buf := 1 :: 2 :: List.replicate (N - 2) 0, r := 2, f := 0,
        bufferSize := (N : Int), elementSize := 1 }
      { frame := [0, 0, 0, 0], frameSize := 4, overlap := 2, elementSize := 1,
        firstFrameCompleteFlag := 0, p_previousOverlap := [] } =
      (dspFrame_result.FRAME_IS_NOT_READY,
        { buf := 1 :: 2 :: List.replicate (N - 2) 0, r := 2, f := 0,
          bufferSize := (N : Int), elementSize := 1 },
        { frame := [0, 0, 0, 0], frameSize := 4, overlap := 2, elementSize := 1,
          firstFrameCompleteFlag := 0, p_previousOverlap := [] }) := by
    simp [DSP_frameExtraction_IsNextFrameReady]
  have he3 : CircularBuffer_Enqueue
      { buf := 1 :: 2 :: List.replicate (N - 2) 0, r := 2, f := 0,
        bufferSize := (N : Int), elementSize := 1 } [3] 1 =
      { buf := 1 :: 2 :: 3 :: List.replicate (N - 3) 0, r := 3, f := 0,
        bufferSize := (N : Int), elementSize := 1 } := by
    simp [CircularBuffer_Enqueue, CircularBuffer_IsEmpty, CircularBuffer_IsFull,
      enqueueRearAhead, readBytes, storeBytes, replicate_drop, e3,
      (show (2:Int) + 1 ≤ (N:Int) from by omega),
      (show (3 : Nat) ≤ N from by omega),
      (show (N - 2 : Nat) - 1 = N - 3 from by omega)]
  have hp3 : DSP_frameExtraction_IsNextFrameReady
      { buf := 1 :: 2 :: 3 :: List.replicate (N - 3) 0, r := 3, f := 0,
        bufferSize := (N : Int), elementSize := 1 }
      { frame := [0, 0, 0, 0], frameSize := 4, overlap := 2, elementSize := 1,
        firstFrameCompleteFlag := 0, p_previousOverlap := [] } =
      (dspFrame_result.FRAME_IS_NOT_READY,
        { buf := 1 :: 2 :: 3 :: List.replicate (N - 3) 0, r := 3, f := 0,
          bufferSize := (N : Int), elementSize := 1 },
        { frame := [0, 0, 0, 0], frameSize := 4, overlap := 2, elementSize := 1,
          firstFrameCompleteFlag := 0, p_previousOverlap := [] }) := by
    simp [DSP_frameExtraction_IsNextFrameReady]
  have he4 : CircularBuffer_Enqueue
      { buf := 1 :: 2 :: 3 :: List.replicate (N - 3) 0, r := 3, f := 0,
        bufferSize := (N : Int), elementSize := 1 } [4] 1 =
      { buf := 1 :: 2 :: 3 :: 4 :: List.replicate (N - 4) 0, r := 4, f := 0,
        bufferSize := (N : Int), elementSize := 1 } := by
    simp [CircularBuffer_Enqueue, CircularBuffer_IsEmpty, CircularBuffer_IsFull,
      enqueueRearAhead, readBytes, storeBytes, replicate_drop, e4,
      (show (3:Int) + 1 ≤ (N:Int) from by omega),
      (show (4 : Nat) ≤ N from by omega),
      (show (N - 3 : Nat) - 1 = N - 4 from by omega)]
  have hp4 : DSP_frameExtraction_IsNextFrameReady
      { buf := 1 :: 2 :: 3 :: 4 :: List.replicate (N - 4) 0, r := 4, f := 0,
        bufferSize := (N : Int), elementSize := 1 }
      { frame := [0, 0, 0, 0], frameSize := 4, overlap := 2, elementSize := 1,
        firstFrameCompleteFlag := 0, p_previousOverlap := [] } =
      (dspFrame_result.FRAME_IS_READY,
        { buf := 0 :: 0 :: 0 :: 0 :: List.replicate (N - 4) 0, r := -1, f := -1,
          bufferSize := (N : Int), elementSize := 1 },
        { frame := [1, 2, 3, 4], frameSize := 4, overlap := 2, elementSize := 1,
          firstFrameCompleteFlag := 1, p_previousOverlap := [3, 4] }) := by
    simp [DSP_frameExtraction_IsNextFrameReady, CircularBuffer_Dequeue,
      CircularBuffer_IsEmpty, memsetZero, readBytes, storeBytes,
      (show List.replicate 4 (0:Int) = [0, 0, 0, 0] from rfl),
      (show List.replicate 2 (0:Int) = [0, 0] from rfl)]
  have he5 : CircularBuffer_Enqueue
      { buf := 0 :: 0 :: 0 :: 0 :: List.replicate (N - 4) 0, r := -1, f := -1,
        bufferSize := (N : Int), elementSize := 1 } [5] 1 =
      { buf := 5 :: 0 :: 0 :: 0 :: List.replicate (N - 4) 0, r := 1, f := 0,
        bufferSize := (N : Int), elementSize := 1 } := by
    simp [CircularBuffer_Enqueue, CircularBuffer_IsEmpty, enqueueRearAhead,
      readBytes, storeBytes, e1, c1]
  have hp5 : DSP_frameExtraction_IsNextFrameReady
      { buf := 5 :: 0 :: 0 :: 0 :: List.replicate (N - 4) 0, r := 1, f := 0,
        bufferSize := (N : Int), elementSize := 1 }
      { frame := [1, 2, 3, 4], frameSize := 4, overlap := 2, elementSize := 1,
        firstFrameCompleteFlag := 1, p_previousOverlap := [3, 4] } =
      (dspFrame_result.FRAME_IS_NOT_READY,
        { buf := 5 :: 0 :: 0 :: 0 :: List.replicate (N - 4) 0, r := 1, f := 0,
          bufferSize := (N : Int), elementSize := 1 },
        { frame := [1, 2, 3, 4], frameSize := 4, overlap := 2, elementSize := 1,
          firstFrameCompleteFlag := 1, p_previousOverlap := [3, 4] }) := by
    simp [DSP_frameExtraction_IsNextFrameReady]
  have he6 : CircularBuffer_Enqueue
      { buf := 5 :: 0 :: 0 :: 0 :: List.replicate (N - 4) 0, r := 1, f := 0,
        bufferSize := (N : Int), elementSize := 1 } [6] 1 =
      { buf := 5 :: 6 :: 0 :: 0 :: List.replicate (N - 4) 0, r := 2, f := 0,
        bufferSize := (N : Int), elementSize := 1 } := by
    simp [CircularBuffer_Enqueue, CircularBuffer_IsEmpty, CircularBuffer_IsFull,
      enqueueRearAhead, readBytes, storeBytes, e2,
      (show (1:Int) + 1 ≤ (N:Int) from by omega),
      (show (2 : Nat) ≤ N from by omega)]
  have hp6 : DSP_frameExtraction_IsNextFrameReady
      { buf := 5 :: 6 :: 0 :: 0 :: List.replicate (N - 4) 0, r := 2, f := 0,
        bufferSize := (N : Int), elementSize := 1 }
      { frame := [1, 2, 3, 4], frameSize := 4, overlap := 2, elementSize := 1,
        firstFrameCompleteFlag := 1, p_previousOverlap := [3, 4] } =
      (dspFrame_result.FRAME_IS_READY,
        { buf := 0 :: 0 :: 0 :: 0 :: List.replicate (N - 4) 0, r := -1, f := -1,
          bufferSize := (N : Int), elementSize := 1 },
        { frame := [3, 4, 5, 6], frameSize := 4, overlap := 2, elementSize := 1,
          firstFrameCompleteFlag := 1, p_previousOverlap := [5, 6] }) := by
    simp [DSP_frameExtraction_IsNextFrameReady, steadyReady,
      CircularBuffer_Dequeue, CircularBuffer_IsEmpty, memsetZero, readBytes,
      storeBytes, (show List.replicate 2 (0:Int) = [0, 0] from rfl)]
  have he7 : CircularBuffer_Enqueue
      { buf := 0 :: 0 :: 0 :: 0 :: List.replicate (N - 4) 0, r := -1, f := -1,
        bufferSize := (N : Int), elementSize := 1 } [7] 1 =
      { buf := 7 :: 0 :: 0 :: 0 :: List.replicate (N - 4) 0, r := 1, f := 0,
        bufferSize := (N : Int), elementSize := 1 } := by
    simp [CircularBuffer_Enqueue, CircularBuffer_IsEmpty, enqueueRearAhead,
      readBytes, storeBytes, e1, c1]
  have hp7 : DSP_frameExtraction_IsNextFrameReady
      { buf := 7 :: 0 :: 0 :: 0 :: List.replicate (N - 4) 0, r := 1, f := 0,
        bufferSize := (N : Int), elementSize := 1 }
      { frame := [3, 4, 5, 6], frameSize := 4, overlap := 2, elementSize := 1,
        firstFrameCompleteFlag := 1, p_previousOverlap := [5, 6] } =
      (dspFrame_result.FRAME_IS_NOT_READY,
        { buf := 7 :: 0 :: 0 :: 0 :: List.replicate (N - 4) 0, r := 1, f := 0,
          bufferSize := (N : Int), elementSize := 1 },
        { frame := [3, 4, 5, 6], frameSize := 4, overlap := 2, elementSize := 1,
          firstFrameCompleteFlag := 1, p_previousOverlap := [5, 6] }) := by
    simp [DSP_frameExtraction_IsNextFrameReady]
  have he8 : CircularBuffer_Enqueue
      { buf := 7 :: 0 :: 0 :: 0 :: List.replicate (N - 4) 0, r := 1, f := 0,
        bufferSize := (N : Int), elementSize := 1 } [8] 1 =
      { buf := 7 :: 8 :: 0 :: 0 :: List.replicate (N - 4) 0, r := 2, f := 0,
        bufferSize := (N : Int), elementSize := 1 } := by
    simp [CircularBuffer_Enqueue, CircularBuffer_IsEmpty, CircularBuffer_IsFull,
      enqueueRearAhead, readBytes, storeBytes, e2,
      (show (1:Int) + 1 ≤ (N:Int) from by omega),
      (show (2 : Nat) ≤ N from by omega)]
  have hp8 : DSP_frameExtraction_IsNextFrameReady
      { buf := 7 :: 8 :: 0 :: 0 :: List.replicate (N - 4) 0, r := 2, f := 0,
        bufferSize := (N : Int), elementSize := 1 }
      { frame := [3, 4, 5, 6], frameSize := 4, overlap := 2, elementSize := 1,
        firstFrameCompleteFlag := 1, p_previousOverlap := [5, 6] } =
      (dspFrame_result.FRAME_IS_READY,
        { buf := 0 :: 0 :: 0 :: 0 :: List.replicate (N - 4) 0, r := -1, f := -1,
          bufferSize := (N : Int), elementSize := 1 },
        { frame := [5, 6, 7, 8], frameSize := 4, overlap := 2, elementSize := 1,
          firstFrameCompleteFlag := 1, p_previousOverlap := [7, 8] }) := by
    simp [DSP_frameExtraction_IsNextFrameReady, steadyReady,
      CircularBuffer_Dequeue, CircularBuffer_IsEmpty, memsetZero, readBytes,
      storeBytes, (show List.replicate 2 (0:Int) = [0, 0] from rfl)]
  refine ⟨?_, by decide, by decide⟩
  rw [hinit, hfr0]
  simp only [pullPerEnqueue, he1, hp1, he2, hp2, he3, hp3, he4, hp4, he5, hp5,
    he6, hp6, he7, hp7, he8, hp8]

theorem C3_frame_overlap_witness :
    5 ≤ 8 ∧
    (pullPerEnqueue (CircularBuffer_Init (List.replicate 8 0) 1 8)
        (DSP_frameExtraction_Init (List.replicate 4 0) 1 4 2)
        [1, 2, 3, 4, 5, 6, 7, 8] =
      [(dspFrame_result.FRAME_IS_NOT_READY, [0, 0, 0, 0]),
       (dspFrame_result.FRAME_IS_NOT_READY, [0, 0, 0, 0]),
       (dspFrame_result.FRAME_IS_NOT_READY, [0, 0, 0, 0]),
       (dspFrame_result.FRAME_IS_READY, [1, 2, 3, 4]),
       (dspFrame_result.FRAME_IS_NOT_READY, [1, 2, 3, 4]),
       (dspFrame_result.FRAME_IS_READY, [3, 4, 5, 6]),
       (dspFrame_result.FRAME_IS_NOT_READY, [3, 4, 5, 6]),
       (dspFrame_result.FRAME_IS_READY, [5, 6, 7, 8])] ∧
      List.take 2 [3, 4, 5, 6] = List.drop 2 ([1, 2, 3, 4] : List Int) ∧
      List.take 2 [5, 6, 7, 8] = List.drop 2 ([3, 4, 5, 6] : List Int)) :=
  ⟨by decide, C3_frame_overlap 8 (by decide)⟩
